import Mathlib

/-!
Shallow embedding of the FAT-2 transaction/batch construction and signing
code of the fat-js repository (files `2/Transaction.js`, `2/TransactionBuilder.js`,
`2/TransactionBatch.js`, `2/TransactionBatchBuilder.js`).

Conventions of the embedding:
* JS byte buffers are `List Nat` (each element a byte value).
* JS `BigNumber` amounts are `Rat`: `isInteger()` is `den = 1`,
  `isLessThan(0)` is `< 0`, `plus` is `+`, `isEqualTo` is `=`.
* A JS field that may be `undefined` is an `Option`.
* A JS method that can `throw` returns `Except String α`; the strings are the
  thrown messages (`TypeError:`-prefixed strings model JS runtime type errors
  at the expression that would raise them).
* External capabilities (address validation, key derivation, nacl, sha512,
  JSON stringification) are oracle functions gathered in an `Env` record and
  passed as a parameter; the code under verification never inspects them.
-/

deriving instance DecidableEq for Except

namespace FatJs

/-- Fuel-driven helper for `decRepr`; the fuel only makes the recursion
structural and never runs out when it starts above the argument. -/
def decReprAux : Nat → Nat → List Nat
  | 0, _ => []
  | fuel + 1, n =>
    if n < 10 then [48 + n]
    else decReprAux fuel (n / 10) ++ [48 + n % 10]

/-- Bytes of the decimal string produced by JS `n.toString()` for a
non-negative integer `n` (ASCII digits, most significant first). -/
def decRepr (n : Nat) : List Nat := decReprAux (n + 1) n

/-- Value of one hexadecimal digit character (code point), as used by JS
`Buffer.from(s, 'hex')`. -/
def hexDigitVal (c : Char) : Nat :=
  if c.toNat ≥ 97 then c.toNat - 87
  else if c.toNat ≥ 65 then c.toNat - 55
  else c.toNat - 48

/-- Byte list of JS `Buffer.from(s, 'hex')`: consecutive pairs of hex digits. -/
def hexPairs : List Char → List Nat
  | a :: b :: rest => (16 * hexDigitVal a + hexDigitVal b) :: hexPairs rest
  | _ => []

def hexDecode (s : String) : List Nat := hexPairs s.data

/-- Byte list of JS `Buffer.from(s)` for a string (code points; the strings
involved are ASCII JSON/deciaml text, one byte per character). -/
def strBytes (s : String) : List Nat := s.data.map Char.toNat

/-- `getMarshalDataSig` (2/TransactionBatch.js lines 248-254), after the
`Buffer.from` conversions of its four components:
`Buffer.concat([index, timestamp, chainId, content])` where `index` and
`timestamp` are the decimal strings of the numbers and `chainId`/`content`
are already byte buffers. -/
def marshalDataSig (inputIndex timestamp : Nat) (chainId content : List Nat) : List Nat :=
  decRepr inputIndex ++ decRepr timestamp ++ chainId ++ content

/-- `constant.RCD_TYPE_1`: the one-byte RCD type tag prepended to the public
key. -/
def RCD_TYPE_1 : List Nat := [1]

/-- The hard-coded token chain id of `2/TransactionBuilder.js` and
`2/TransactionBatchBuilder.js`. -/
def mainTokenChainId : String :=
  "cffce0f409ebba4ed236d49d89c70e4bd1f1367d86402a3363366683265a242d"

/-- The builder field `_input`: `{address, amount, type}`. -/
structure TxInput where
  address : String
  amount : Rat
  type_ : String
deriving Repr, DecidableEq

/-- One element of `_transfers`: `{address, amount}`. -/
structure Transfer where
  address : String
  amount : Rat
deriving Repr, DecidableEq

/-- The `_key` object: `nacl.keyPair.fromSeed(...)` gives both components,
`{pubaddr: fa, publicKey: undefined}` gives neither, `{}` gives neither. -/
structure KeyState where
  publicKey : Option (List Nat)
  secretKey : Option (List Nat)
  pubaddr : Option String
deriving Repr, DecidableEq

/-- The content-relevant fields of a transaction, in the wire key order
`input, conversion?, transfers?, metadata?`. -/
structure TxContent where
  input : TxInput
  conversion : Option String
  transfers : Option (List Transfer)
  metadata : Option String
deriving Repr, DecidableEq

/-- External capabilities the code consumes (address/key library, nacl,
sha512, JSON stringification). The embedding treats them as oracles. -/
structure Env where
  isValidPrivateAddress : String → Bool
  isValidPublicFctAddress : String → Bool
  getPublicAddress : String → String
  /-- `nacl.keyPair.fromSeed(fctAddressUtil.addressToKey(fs))` as
  `(publicKey, secretKey)`. -/
  keyPairFromSeed : String → (List Nat) × (List Nat)
  keyToPublicFctAddress : List Nat → String
  sha512 : List Nat → List Nat
  /-- `nacl.detached(hashed, secretKey)`. -/
  naclDetached : List Nat → List Nat → List Nat
  /-- `nacl.detached.verify(hashed, signature, publicKey)`. -/
  naclVerify : List Nat → List Nat → List Nat → Bool
  /-- `JSONBig.stringify({version, transactions})` for the batch content
  snapshot. -/
  stringifyBatch : Nat → List TxContent → String

/-- A FAT-2 `Transaction` (2/Transaction.js) built from a `TransactionBuilder`.
The builder-construction path sets `_input`, `_conversion?`, `_transfers?`
(only when non-empty), `_metadata?`, `_key` and `_rcd`; `_signature` and
`_timestamp` are never set by that path, and the from-object path sets no
`_rcd`/`_key`, which is why `_rcd` is an `Option`. `_frozen` models the
`Object.freeze(this)` at the end of the constructor. -/
structure Transaction where
  _input : TxInput
  _conversion : Option String
  _transfers : Option (List Transfer)
  _metadata : Option String
  _key : KeyState
  _rcd : Option (List Nat)
  _frozen : Bool
deriving Repr, DecidableEq

/-- A `TransactionBuilder` (2/TransactionBuilder.js) state. -/
structure TransactionBuilder where
  _tokenChainId : String
  _key : KeyState
  /-- JS `this._signature`, an array holding one signature when set by
  `pkSignature`. -/
  _signature : Option (List (List Nat))
  _input : TxInput
  _transfers : List Transfer
  _conversion : Option String
  _timestamp : Option Nat
  _metadata : Option String
deriving Repr, DecidableEq

/-- `new TransactionBuilder()` (the `t === undefined` constructor branch):
`_key = {}`, `_input = {address:"", amount: BigNumber(0), type: ""}`,
`_transfers = []`. -/
def TransactionBuilder.new : TransactionBuilder where
  _tokenChainId := mainTokenChainId
  _key := ⟨none, none, none⟩
  _signature := none
  _input := ⟨"", 0, ""⟩
  _transfers := []
  _conversion := none
  _timestamp := none
  _metadata := none

/-! ## Transaction methods (2/Transaction.js) -/

namespace Transaction

/-- The `builder instanceof TransactionBuilder` branch of the `Transaction`
constructor. `Buffer.from(builder._key.publicKey)` throws a `TypeError` when
the key holds no public key (public-address input with no supplied
signature), hence the `Except`. -/
def fromBuilder (b : TransactionBuilder) : Except String Transaction :=
  match b._key.publicKey with
  | none => .error "TypeError: Buffer.from called on undefined publicKey"
  | some pk =>
    .ok { _input := b._input
          _conversion := b._conversion
          _transfers := if b._transfers.length > 0 then some b._transfers else none
          _metadata := b._metadata
          _key := b._key
          _rcd := some (RCD_TYPE_1 ++ pk)
          _frozen := true }

def getInput (t : Transaction) : TxInput := t._input

def getConversion (t : Transaction) : Option String := t._conversion

def getRCD (t : Transaction) : Option (List Nat) := t._rcd

def getTransfers (t : Transaction) : Option (List Transfer) := t._transfers

def getMetadata (t : Transaction) : Option String := t._metadata

/-- `sign(hashed)`: a detached nacl signature over `hashed` when a secret key
is held, otherwise `undefined`. -/
def sign (env : Env) (t : Transaction) (hashed : List Nat) : Option (List Nat) :=
  match t._key.secretKey with
  | some sk => some (env.naclDetached hashed sk)
  | none => none

/-- `validateSignature(hashed, signature)` (2/Transaction.js lines 143-153):
throws when the signature argument or the held RCD is `undefined`, otherwise
returns the boolean verdict of `nacl.detached.verify` against the public key
`Buffer.from(this._rcd, 1).slice(1)` (the RCD minus its type byte). -/
def validateSignature (env : Env) (t : Transaction) (hashed : List Nat)
    (signature : Option (List Nat)) : Except String Bool :=
  match signature, t._rcd with
  | some s, some rcd => .ok (env.naclVerify hashed s (rcd.drop 1))
  | _, _ => .error "Transaction not signed"

/-- A (non-strict mode) JS property write `t._x = v`, abstracted as an
arbitrary field update `upd`: on an object frozen by `Object.freeze` the
write is silently discarded, otherwise it lands. -/
def jsPropertyWrite (t : Transaction) (upd : Transaction → Transaction) :
    Transaction :=
  if t._frozen then t else upd t

end Transaction

/-! ## TransactionBuilder methods (2/TransactionBuilder.js) -/

namespace TransactionBuilder

/-- `input(type_, fs, amount_)`. The leading JS guard
`if (this._input.length > 0) throw new Error('Input already specified')` is
dead code: `_input` is a plain object, so `_input.length` is `undefined` and
`undefined > 0` is `false`; it is therefore not modelled. `amount_` is an
`Option` because the parameter may be omitted (defaulting to `0`). -/
def input (env : Env) (b : TransactionBuilder) (type_ fs : String)
    (amount_ : Option Rat) : Except String TransactionBuilder :=
  let amt := amount_.getD 0
  if b._signature.isSome then
    .error "Attempting to add new input to a previously assembled transaction, expecting signatures only"
  else if env.isValidPrivateAddress fs then
    if ¬(amt.den = 1) ∨ amt < 0 then
      .error "Input amount must be a positive nonzero integer"
    else
      let kp := env.keyPairFromSeed fs
      .ok { b with
            _key := ⟨some kp.1, some kp.2, none⟩
            _input := ⟨env.getPublicAddress fs, amt, type_⟩ }
  else if ¬(env.isValidPublicFctAddress fs) then
    .error "Input address must be either a valid private Factoid address or a Factoid public address"
  else if ¬(amt.den = 1) ∨ amt < 0 then
    .error "Input amount must be a positive nonzero integer"
  else
    .ok { b with
          _key := ⟨none, none, some fs⟩
          _input := ⟨fs, amt, type_⟩ }

/-- `transfer(fa, amount)`. -/
def transfer (env : Env) (b : TransactionBuilder) (fa : String)
    (amount : Option Rat) : Except String TransactionBuilder :=
  if b._conversion.isSome then
    .error "Conversion already specified"
  else
    let amt := amount.getD 0
    if b._signature.isSome then
      .error "Attempting to add new output to previously assembled transaction, expecting signature only"
    else if ¬(env.isValidPublicFctAddress fa) then
      .error "Output address must be a valid public Factoid address"
    else if ¬(amt.den = 1) ∨ amt < 0 then
      .error "Input amount must be a positive nonzero integer"
    else
      .ok { b with _transfers := b._transfers ++ [⟨fa, amt⟩] }

/-- `conversion(convert_to_type_)`. -/
def conversion (b : TransactionBuilder) (convert_to_type_ : String) :
    Except String TransactionBuilder :=
  if b._transfers.length > 0 then
    .error "One or more transfer(s) already specified for this transaction"
  else if b._signature.isSome then
    .error "Attempting to add new conversion to previously assembled transaction, expecting signature only"
  else
    .ok { b with _conversion := some convert_to_type_ }

/-- `pkSignature(publicKey, signature)` (2/TransactionBuilder.js lines
482-497). `publicKey` is already the key bytes (`Buffer.from(publicKey,
'hex')`). The JS mismatch message interpolates the key hex; the embedding
uses the fixed surrounding text. -/
def pkSignature (env : Env) (b : TransactionBuilder) (publicKey signature : List Nat) :
    Except String TransactionBuilder :=
  let pk := publicKey
  let fa := env.keyToPublicFctAddress pk
  if signature.length ≠ 64 then
    .error "Invalid Signature Length."
  else if b._input.address = fa then
    .ok { b with
          _key := { b._key with publicKey := some pk }
          _signature := some [signature] }
  else
    .error "Public Key for provided signature does not match input adderess."

/-- The per-transfer validation loop inside `build()` (lines 520-542):
checks each entry in order, accumulating the running `sum`. The
`=== undefined` guards on the entry and its fields are dead in the embedding
because the list elements are total records. -/
def checkTransfersLoop (inputAddress : String) :
    Rat → List Transfer → Except String Rat
  | sum, [] => .ok sum
  | sum, tr :: rest =>
    if ¬(tr.amount.den = 1) ∨ tr.amount < 0 then
      .error "transfer amount must be a positive nonzero integer"
    else if inputAddress = tr.address then
      .error "input cannot be the same as the transfer address"
    else
      checkTransfersLoop inputAddress (sum + tr.amount) rest

/-- `build()` (2/TransactionBuilder.js lines 504-561). The leading
`=== undefined` checks on `_input.address/amount/type` are dead in the
embedding (the fields are total and initialised by the constructor), as is
the `this._conversion.length === ""` comparison (a number is never equal to
a string). -/
def build (b : TransactionBuilder) : Except String Transaction :=
  if ¬(b._input.amount.den = 1) ∨ b._input.amount < 0 then
    .error "Input amount must be a positive nonzero integer"
  else if b._conversion.isNone ∧ b._transfers.length = 0 then
    .error "Either a conversion or transfer must be specified"
  else if b._conversion = some b._input.type_ then
    .error "Conversion asset cannot be the same as the input asset."
  else
    match (if b._transfers.length > 0 then
        checkTransfersLoop b._input.address 0 b._transfers else .ok 0) with
    | .error e => .error e
    | .ok sum =>
      if b._transfers.length > 0 ∧ ¬(b._input.amount = sum) then
        .error "transfer amount must equal input amount"
      else if b._timestamp.isSome ∧ b._signature.isNone then
        .error "Missing signature: Inputs must have an associated signature"
      else
        match b._signature with
        | some sigs =>
          if sigs.length = 0 then
            .error "Missing signature: Inputs must have an associated signature"
          else Transaction.fromBuilder b
        | none => Transaction.fromBuilder b

end TransactionBuilder

/-! ## TransactionBatch and its builder (2/TransactionBatch.js,
2/TransactionBatchBuilder.js) -/

/-- A `TransactionBatch`. The singular `_signature`/`_rcd` fields appear in
`validateSignatures` but are assigned by no constructor branch, so they model
the permanently-`undefined` JS properties (and, on a frozen object, can never
be assigned later). `_extIds` entries are `Option` byte strings because the
JS loops can push `undefined` array slots. -/
structure TransactionBatch where
  _transactions : List Transaction
  _tokenChainId : String
  _timestamp : Nat
  _extIds : List (Option (List Nat))
  _content : Option String
  _signatures : Option (List (Option (List Nat)))
  _rcds : Option (List (Option (List Nat)))
  _signature : Option (List (Option (List Nat)))
  _rcd : Option (List (Option (List Nat)))
  _frozen : Bool
deriving Repr, DecidableEq, Inhabited

/-- A `TransactionBatchBuilder` state. `_content` and `_keys` are read by the
batch constructor but assigned nowhere in the builder class; `_content` is
kept as a permanently-`none` capable field, `_keys` is always `undefined` and
is modelled at its use site. -/
structure TransactionBatchBuilder where
  _tokenChainId : String
  _version : Nat
  _transactions : List Transaction
  _signatures : Option (List (Option (List Nat)))
  _timestamp : Option Nat
  _content : Option String
deriving Repr, DecidableEq

namespace TransactionBatchBuilder

/-- `new TransactionBatchBuilder()` with no prior batch. -/
def new : TransactionBatchBuilder where
  _tokenChainId := mainTokenChainId
  _version := 1
  _transactions := []
  _signatures := none
  _timestamp := none
  _content := none

/-- `new TransactionBatchBuilder(t)` seeded from a prior batch. -/
def fromBatch (t : TransactionBatch) : TransactionBatchBuilder where
  _tokenChainId := mainTokenChainId
  _version := 1
  _transactions := t._transactions
  _signatures := t._signatures
  _timestamp := some t._timestamp
  _content := none

/-- `transaction(tx)`: appends unconditionally. -/
def transaction (bb : TransactionBatchBuilder) (tx : Transaction) :
    TransactionBatchBuilder :=
  { bb with _transactions := bb._transactions ++ [tx] }

/-- `pkSignature(tx, signature)` (2/TransactionBatchBuilder.js lines
103-121). The first evaluated expression is `t instanceof Transaction`, but
no identifier `t` is bound in the function (the parameter is `tx`, and the
constructor parameter `t` of the class is a different scope), so every call
throws `ReferenceError: t is not defined` before the lookup/assignment code
below it can run:
```
let idx = 0
let obj = this._transactions.find(...)
if ( obj !== undefined ) this._signatures[idx] = signature
else throw new Error("Transaction ... not found, ...")
```
All of that is unreachable dead code. -/
def pkSignature (_bb : TransactionBatchBuilder) (_tx : Transaction)
    (_signature : List Nat) : Except String TransactionBatchBuilder :=
  .error "ReferenceError: t is not defined"

/-- The signature-slot scan inside `build()`:
`this._signatures[i].find(s => s === undefined)`. When the slot holds a
signature the `find` runs over a byte array and never finds `undefined`, so
the guard is falsy and nothing is thrown; when the slot itself is `undefined`
the `.find` property access throws a `TypeError` (the `Expecting signature
for transaction index ...` message below it is unreachable). -/
def checkSigSlots : List (Option (List Nat)) → Except String Unit
  | [] => .ok ()
  | some _ :: rest => checkSigSlots rest
  | none :: _ => .error "TypeError: cannot read find of undefined"

end TransactionBatchBuilder

namespace TransactionBatch

/-- The first-pass signing loop of the `TransactionBatch` constructor (lines
102-114): for the transaction at position `idx`,
`tx.sign(sha512(Buffer.concat([index, timestamp, chainId, content])))`,
collecting the (possibly `undefined`) signatures in order. -/
def signAll (env : Env) (now : Nat) (tokenChainId content : String) :
    Nat → List Transaction → List (Option (List Nat))
  | _, [] => []
  | idx, tx :: rest =>
    tx.sign env (env.sha512
        (marshalDataSig idx now (hexDecode tokenChainId) (strBytes content)))
      :: signAll env now tokenChainId content (idx + 1) rest

/-- The extIds assembly loop (lines 84-87 and 121-124):
`for i < rcds.length { push(rcds[i]); push(signatures[i]) }`; a signature
index beyond the signatures array pushes `undefined`. -/
def extIdPairs : List (Option (List Nat)) → List (Option (List Nat)) →
    List (Option (List Nat))
  | [], _ => []
  | r :: rs, [] => r :: none :: extIdPairs rs []
  | r :: rs, s :: ss => r :: s :: extIdPairs rs ss

/-- The RCD collection loop of the signatures-present constructor branch
(lines 60-73): takes `tx.getRCD()` when defined; otherwise the code reads
`builder._keys[idx]`, but `TransactionBatchBuilder` assigns no `_keys`
property, so that index access on `undefined` throws a `TypeError` (the
`Public key not specified with signature` throw below it is unreachable). -/
def collectRcds : List Transaction → Except String (List (List Nat))
  | [] => .ok []
  | tx :: rest =>
    match tx._rcd with
    | some r => (collectRcds rest).map (fun l => r :: l)
    | none => .error "TypeError: cannot index undefined _keys"

/-- The content-snapshot loop of the first-pass constructor branch (lines
93-95): `content.transactions.push(tx.getContent())` for every member. The
FAT-2 `Transaction` class being modelled (2/Transaction.js, the one whose
`sign`/`getRCD`/`validateSignature`/`_key`/`_rcd` the rest of the embedding
follows) defines **no** `getContent` method, so the first call on any member
throws `TypeError: tx.getContent is not a function`; only the empty
transaction list gets past this loop. (The repository's sibling variant that
does define `getContent` never assigns `_key`/`_rcd`, so it could not sign
or produce RCDs either.) -/
def collectContents : List Transaction → Except String (List TxContent)
  | [] => .ok []
  | _ :: _ => .error "TypeError: tx.getContent is not a function"

/-- The `potential first pass` branch of the `TransactionBatch` constructor
(lines 89-126): snapshot the content as
`{version: 1, transactions: [tx.getContent(), ...]}` — which throws for any
non-empty member list, see `collectContents` — then attempt local signing of
every member, and assemble extIds only when every slot was signed. -/
def firstPass (env : Env) (now : Nat) (b : TransactionBatchBuilder) :
    Except String TransactionBatch :=
  match collectContents b._transactions with
  | .error e => .error e
  | .ok contents =>
    let content := env.stringifyBatch 1 contents
    let sigs := signAll env now b._tokenChainId content 0 b._transactions
    let valid := sigs.all Option.isSome
    let rcds := b._transactions.map Transaction.getRCD
    .ok { _transactions := b._transactions
          _tokenChainId := b._tokenChainId
          _timestamp := now
          _content := some content
          _signatures := some sigs
          _rcds := if valid then some rcds else none
          _extIds :=
            if valid then some (decRepr now) :: extIdPairs rcds sigs
            else [some (decRepr now)]
          _signature := none
          _rcd := none
          _frozen := true }

/-- The `builder instanceof TransactionBatchBuilder` branch of the
`TransactionBatch` constructor (lines 49-136). `now` is the unix-seconds
clock reading `Math.round(new Date().getTime() / 1000)`. -/
def fromBuilder (env : Env) (now : Nat) (b : TransactionBatchBuilder) :
    Except String TransactionBatch :=
  match b._signatures with
  | some sigs =>
    -- second pass: signatures were supplied on the builder
    match collectRcds b._transactions with
    | .error e => .error e
    | .ok rcds =>
      if rcds.length ≠ sigs.length then
        .error "Missmatch between rcds and the number of signatures provided"
      else
        match b._timestamp with
        | none => .error "TypeError: toString of undefined timestamp"
        | some ts =>
          .ok { _transactions := b._transactions
                _tokenChainId := b._tokenChainId
                _timestamp := ts
                _content := b._content
                _signatures := some sigs
                _rcds := some (rcds.map some)
                _extIds := some (decRepr ts) :: extIdPairs (rcds.map some) sigs
                _signature := none
                _rcd := none
                _frozen := true }
  | none => firstPass env now b

/-- `getMarshalDataSig(inputIndex)` on a batch, via the module-level
`getMarshalDataSig(tb, inputIndex)` (lines 248-254): a `TypeError` surfaces
at `Buffer.from(this._content)` when the content snapshot is `undefined`
(the second-pass constructor copies the never-assigned builder `_content`). -/
def getMarshalDataSig (tb : TransactionBatch) (inputIndex : Nat) :
    Except String (List Nat) :=
  match tb._content with
  | some c =>
    .ok (marshalDataSig inputIndex tb._timestamp
          (hexDecode tb._tokenChainId) (strBytes c))
  | none => .error "TypeError: Buffer.from called on undefined content"

/-- The `forEach` of `validateSignatures` (lines 232-236):
`tx.validateSignature(sha512(this.getMarshalDataSig(i)), this._signature[i],
this._rcd[i])`. The third argument is ignored by the two-parameter
`Transaction.validateSignature`, hence `_rcdsArg` is unused. -/
def validateSigsLoop (env : Env) (tb : TransactionBatch)
    (sigs _rcdsArg : List (Option (List Nat))) :
    Nat → List Transaction → Except String Bool
  | _, [] => .ok true
  | i, tx :: rest =>
    match tb.getMarshalDataSig i with
    | .error e => .error e
    | .ok m =>
      match tx.validateSignature env (env.sha512 m) ((sigs.get? i).getD none) with
      | .error e => .error e
      | .ok false => .error ("Invalid Transaction Signature for input " ++ Nat.repr i)
      | .ok true => validateSigsLoop env tb sigs _rcdsArg (i + 1) rest

/-- `validateSignatures()` (2/TransactionBatch.js lines 228-238): throws
`Transaction not signed` when `this._signature` or `this._rcd` is
`undefined` — and those singular properties are assigned by no constructor
branch (the constructor fills `_signatures`/`_rcds`), so the guard fires on
every constructor-built batch. -/
def validateSignatures (env : Env) (tb : TransactionBatch) :
    Except String Bool :=
  match tb._signature, tb._rcd with
  | some sigs, some rcds => validateSigsLoop env tb sigs rcds 0 tb._transactions
  | _, _ => .error "Transaction not signed"

/-- A (non-strict mode) JS property write on a batch, abstracted as an
arbitrary field update `upd`: silently discarded once the object is frozen. -/
def jsPropertyWrite (tb : TransactionBatch)
    (upd : TransactionBatch → TransactionBatch) : TransactionBatch :=
  if tb._frozen then tb else upd tb

end TransactionBatch

/-- `TransactionBatchBuilder.build()` (2/TransactionBatchBuilder.js lines
129-154): empty check, signature-count check, per-slot scan, then the
`TransactionBatch` constructor. The `this._transactions[i] === undefined`
guard is dead in the embedding (list elements are total). -/
def TransactionBatchBuilder.build (env : Env) (now : Nat)
    (bb : TransactionBatchBuilder) : Except String TransactionBatch :=
  if bb._transactions.length = 0 then
    .error "No Transactions Specified."
  else
    match bb._signatures with
    | some sigs =>
      if sigs.length ≠ bb._transactions.length then
        .error "Expecting the same number of signatures as there are number of transactions"
      else
        match TransactionBatchBuilder.checkSigSlots sigs with
        | .error e => .error e
        | .ok _ => TransactionBatch.fromBuilder env now bb
    | none => TransactionBatch.fromBuilder env now bb

/-- The running `sum` of the transfer loop in `TransactionBuilder.build`,
read off the whole list: `sum = sum.plus(transfers[i].amount)` from
`new BigNumber(0)`. -/
def transferSum (l : List Transfer) : Rat :=
  l.foldl (fun a tr => a + tr.amount) 0

/-- A small concrete oracle environment used to instantiate theorems on
concrete inputs. -/
def envTest : Env where
  isValidPrivateAddress := fun s => s = "Fs1priv"
  isValidPublicFctAddress := fun s => s == "FAout" || s == "FAinput" || s == "FAother"
  getPublicAddress := fun _ => "FAinput"
  keyPairFromSeed := fun _ => ([7], [9])
  keyToPublicFctAddress := fun pk => if pk = [7] then "FAinput" else "FAother"
  sha512 := fun l => 99 :: l
  naclDetached := fun h sk => h ++ sk
  naclVerify := fun _ s _ => s.length == 64
  stringifyBatch := fun _ _ => "batchcontent"

/-- A concrete builder state: `input("pFCT", <valid private address>, 5)`
followed by `conversion("PEG")` under `envTest`. -/
def tbC : TransactionBuilder :=
  { TransactionBuilder.new with
    _input := ⟨"FAinput", 5, "pFCT"⟩
    _conversion := some "PEG"
    _key := ⟨some [7], some [9], none⟩ }

/-- The transaction `tbC.build()` produces. -/
def txC : Transaction where
  _input := ⟨"FAinput", 5, "pFCT"⟩
  _conversion := some "PEG"
  _transfers := none
  _metadata := none
  _key := ⟨some [7], some [9], none⟩
  _rcd := some (RCD_TYPE_1 ++ [7])
  _frozen := true

/-- A concrete batch builder holding the single locally-signable `txC`. -/
def bbC : TransactionBatchBuilder :=
  { TransactionBatchBuilder.new with _transactions := [txC] }

/-- The one batch the constructor can actually complete: first pass over an
empty builder (`new TransactionBatch(new TransactionBatchBuilder())`), whose
content loop never calls the missing `tx.getContent()`. -/
def emptyBatch : TransactionBatch :=
  ((TransactionBatch.fromBuilder envTest 5 TransactionBatchBuilder.new).toOption).getD
    default

example : TransactionBuilder.input envTest TransactionBuilder.new "pFCT"
    "Fs1priv" (some 5) = .ok { tbC with _conversion := none } := by decide

example : TransactionBuilder.build tbC = .ok txC := by decide

example : decRepr 0 = [48] := by decide
example : decRepr 123 = [49, 50, 51] := by decide
example : hexDecode "0aff" = [10, 255] := by decide
example : marshalDataSig 1 23 [] [] = marshalDataSig 12 3 [] [] := by decide

/-! Basic facts about `decRepr`. -/

theorem decReprAux_fuel_irrel :
    ∀ f₁ f₂ n : Nat, n < f₁ → n < f₂ → decReprAux f₁ n = decReprAux f₂ n := by
  intro f₁
  induction f₁ with
  | zero => intro f₂ n h₁; omega
  | succ f ih =>
    intro f₂ n h₁ h₂
    match f₂, h₂ with
    | f₂ + 1, _ =>
      rw [decReprAux, decReprAux]
      by_cases h : n < 10
      · simp [h]
      · simp only [h, if_false]
        have hlt : n / 10 < n := Nat.div_lt_self (by omega) (by omega)
        rw [ih f₂ (n / 10) (by omega) (by omega)]

theorem decRepr_eq (n : Nat) :
    decRepr n = if n < 10 then [48 + n] else decRepr (n / 10) ++ [48 + n % 10] := by
  rw [decRepr, decReprAux]
  by_cases h : n < 10
  · simp [h]
  · simp only [h, if_false]
    have hlt : n / 10 < n := Nat.div_lt_self (by omega) (by omega)
    rw [decRepr, decReprAux_fuel_irrel n (n / 10 + 1) (n / 10) (by omega) (by omega)]

theorem decRepr_ne_nil (n : Nat) : decRepr n ≠ [] := by
  rw [decRepr_eq]
  by_cases h : n < 10 <;> simp [h]

theorem decRepr_injective : ∀ m n : Nat, decRepr m = decRepr n → m = n := by
  intro m
  induction m using Nat.strong_induction_on with
  | _ m ih =>
    intro n h
    rw [decRepr_eq m, decRepr_eq n] at h
    by_cases hm : m < 10 <;> by_cases hn : n < 10
    · -- both single digit
      simp only [hm, hn, if_true, List.cons.injEq] at h
      omega
    · -- m < 10, n ≥ 10: lengths differ
      exfalso
      simp only [hm, hn, if_true, if_false] at h
      have hlen := congrArg List.length h
      have hpos := List.length_pos.mpr (decRepr_ne_nil (n / 10))
      simp only [List.length_cons, List.length_append, List.length_nil] at hlen
      omega
    · exfalso
      simp only [hm, hn, if_true, if_false] at h
      have hlen := congrArg List.length h
      have hpos := List.length_pos.mpr (decRepr_ne_nil (m / 10))
      simp only [List.length_cons, List.length_append, List.length_nil] at hlen
      omega
    · -- both multi digit
      simp only [hm, hn, if_false] at h
      have hparts := List.append_inj' h (by simp)
      have h1 : m / 10 = n / 10 :=
        ih (m / 10) (Nat.div_lt_self (by omega) (by omega)) (n / 10) hparts.1
      have h2 : m % 10 = n % 10 := by
        have := hparts.2
        simp only [List.cons.injEq] at this
        omega
      omega

/-! ## Data model -/

/-! ## Claim theorems -/

/-- **C2, counterexample.** The marshal-for-signature output is *not*
injective on whole input tuples: the index and timestamp fields are
variable-length decimal strings concatenated with no separator, so
`(index 1, timestamp 23)` and `(index 12, timestamp 3)` marshal to the same
bytes over the same chain id and content, though the tuples differ in the
index (and timestamp) field. -/
theorem marshalDataSig_pairwise_injectivity_fails :
    marshalDataSig 1 23 (hexDecode mainTokenChainId) (strBytes "abc") =
      marshalDataSig 12 3 (hexDecode mainTokenChainId) (strBytes "abc") ∧
    (1 : Nat) ≠ 12 := by
  constructor
  · decide
  · decide

/-- **C2 (amended).** The marshal-for-signature function is deterministic —
identical `(index, timestamp, chainId, content)` tuples give byte-identical
output — and it is injective in each single field: two tuples that differ in
exactly one field (the other three being equal) marshal to different bytes.
(Whole-tuple injectivity fails; see the counterexample.) -/
theorem marshalDataSig_deterministic_and_fieldwise_injective
    (i₁ i₂ t₁ t₂ : Nat) (c₁ c₂ x₁ x₂ : List Nat) :
    (i₁ = i₂ → t₁ = t₂ → c₁ = c₂ → x₁ = x₂ →
      marshalDataSig i₁ t₁ c₁ x₁ = marshalDataSig i₂ t₂ c₂ x₂) ∧
    (t₁ = t₂ → c₁ = c₂ → x₁ = x₂ →
      marshalDataSig i₁ t₁ c₁ x₁ = marshalDataSig i₂ t₂ c₂ x₂ → i₁ = i₂) ∧
    (i₁ = i₂ → c₁ = c₂ → x₁ = x₂ →
      marshalDataSig i₁ t₁ c₁ x₁ = marshalDataSig i₂ t₂ c₂ x₂ → t₁ = t₂) ∧
    (i₁ = i₂ → t₁ = t₂ → x₁ = x₂ →
      marshalDataSig i₁ t₁ c₁ x₁ = marshalDataSig i₂ t₂ c₂ x₂ → c₁ = c₂) ∧
    (i₁ = i₂ → t₁ = t₂ → c₁ = c₂ →
      marshalDataSig i₁ t₁ c₁ x₁ = marshalDataSig i₂ t₂ c₂ x₂ → x₁ = x₂) := by
  refine ⟨?_, ?_, ?_, ?_, ?_⟩
  · rintro rfl rfl rfl rfl; rfl
  · rintro rfl rfl rfl h
    unfold marshalDataSig at h
    exact decRepr_injective _ _
      (List.append_cancel_right
        (List.append_cancel_right (List.append_cancel_right h)))
  · rintro rfl rfl rfl h
    unfold marshalDataSig at h
    exact decRepr_injective _ _
      (List.append_cancel_left
        (List.append_cancel_right (List.append_cancel_right h)))
  · rintro rfl rfl rfl h
    unfold marshalDataSig at h
    exact List.append_cancel_left (List.append_cancel_right h)
  · rintro rfl rfl rfl h
    unfold marshalDataSig at h
    exact List.append_cancel_left h

/-- Witness for the amended C2 theorem at concrete inputs. -/
theorem marshalDataSig_fieldwise_injective_witness :
    marshalDataSig 4 17 [1] [2] = marshalDataSig 4 17 [1] [2] ∧ (4 : Nat) = 4 :=
  ⟨(marshalDataSig_deterministic_and_fieldwise_injective 4 4 17 17 [1] [1] [2] [2]).1
      rfl rfl rfl rfl,
   (marshalDataSig_deterministic_and_fieldwise_injective 4 4 17 17 [1] [1] [2] [2]).2.1
      rfl rfl rfl (by rfl)⟩

/-- **C5.** The batch builder's `pkSignature` dereferences the unbound
identifier `t` (its parameter is `tx`), so every call fails with a
`ReferenceError` and no call ever records a signature: the
externally-supplied-signature path through the batch builder can never
succeed. -/
theorem batchBuilder_pkSignature_always_fails (bb : TransactionBatchBuilder)
    (tx : Transaction) (sig : List Nat) :
    TransactionBatchBuilder.pkSignature bb tx sig =
      .error "ReferenceError: t is not defined" ∧
    ∀ bb', TransactionBatchBuilder.pkSignature bb tx sig ≠ .ok bb' := by
  exact ⟨rfl, fun bb' h => by simp [TransactionBatchBuilder.pkSignature] at h⟩

/-- **C7.** `TransactionBuilder.pkSignature(publicKey, signature)`: a
signature whose length is not exactly 64 fails with the signature-length
error; a 64-byte signature whose derived public address differs from the
input address fails with the address-mismatch error; and the call succeeds
exactly when the signature is 64 bytes and the derived address equals the
input address, in which case the signature and public key are recorded. -/
theorem pkSignature_length_and_address_checks (env : Env)
    (b : TransactionBuilder) (pk sig : List Nat) :
    (sig.length ≠ 64 →
      TransactionBuilder.pkSignature env b pk sig =
        .error "Invalid Signature Length.") ∧
    (sig.length = 64 → b._input.address ≠ env.keyToPublicFctAddress pk →
      TransactionBuilder.pkSignature env b pk sig =
        .error "Public Key for provided signature does not match input adderess.") ∧
    (∀ b', TransactionBuilder.pkSignature env b pk sig = .ok b' ↔
      (sig.length = 64 ∧ b._input.address = env.keyToPublicFctAddress pk ∧
        b' = { b with _key := { b._key with publicKey := some pk }
                      _signature := some [sig] })) := by
  refine ⟨fun h => ?_, fun h64 hne => ?_, fun b' => ?_⟩
  · simp [TransactionBuilder.pkSignature, h]
  · simp [TransactionBuilder.pkSignature, h64, hne]
  · unfold TransactionBuilder.pkSignature
    by_cases h64 : sig.length = 64
    · by_cases haddr : b._input.address = env.keyToPublicFctAddress pk
      · simp [h64, haddr, eq_comm]
      · simp [h64, haddr]
    · simp [h64]

/-- Witness for C7: a 63-byte signature is rejected with the length error,
and a 64-byte signature with the matching derived address is accepted. -/
theorem pkSignature_checks_witness :
    TransactionBuilder.pkSignature envTest
        { TransactionBuilder.new with _input := ⟨"FAinput", 5, "pFCT"⟩ }
        [7] (List.replicate 63 0) = .error "Invalid Signature Length." ∧
    TransactionBuilder.pkSignature envTest
        { TransactionBuilder.new with _input := ⟨"FAinput", 5, "pFCT"⟩ }
        [7] (List.replicate 64 0) =
      .ok { TransactionBuilder.new with
            _input := ⟨"FAinput", 5, "pFCT"⟩
            _key := ⟨some [7], none, none⟩
            _signature := some [List.replicate 64 0] } :=
  ⟨(pkSignature_length_and_address_checks envTest
      { TransactionBuilder.new with _input := ⟨"FAinput", 5, "pFCT"⟩ }
      [7] (List.replicate 63 0)).1 (by decide),
   ((pkSignature_length_and_address_checks envTest
      { TransactionBuilder.new with _input := ⟨"FAinput", 5, "pFCT"⟩ }
      [7] (List.replicate 64 0)).2.2 _).mpr ⟨by decide, by decide, by decide⟩⟩

/-- Both constructor branches of `TransactionBatch` carry the builder's
transaction list over unchanged. -/
theorem fromBuilder_transactions (env : Env) (now : Nat)
    (bb : TransactionBatchBuilder) (batch : TransactionBatch)
    (h : TransactionBatch.fromBuilder env now bb = .ok batch) :
    batch._transactions = bb._transactions := by
  unfold TransactionBatch.fromBuilder at h
  split at h
  · split at h
    · simp at h
    · split at h
      · simp at h
      · split at h
        · simp at h
        · cases h; rfl
  · unfold TransactionBatch.firstPass at h
    split at h
    · simp at h
    · cases h; rfl

/-- **C8.** A `TransactionBatchBuilder` holding no transactions fails
`build()` with the empty-batch error, and a successfully built batch always
carries the builder's (necessarily non-empty) transaction sequence. -/
theorem batch_build_rejects_empty (env : Env) (now : Nat)
    (bb : TransactionBatchBuilder) :
    (bb._transactions = [] →
      TransactionBatchBuilder.build env now bb =
        .error "No Transactions Specified.") ∧
    (∀ batch, TransactionBatchBuilder.build env now bb = .ok batch →
      batch._transactions = bb._transactions ∧ batch._transactions ≠ []) := by
  constructor
  · intro h
    simp [TransactionBatchBuilder.build, h]
  · intro batch h
    unfold TransactionBatchBuilder.build at h
    by_cases hlen : bb._transactions.length = 0
    · simp [hlen] at h
    · simp only [hlen, if_false] at h
      have hne : bb._transactions ≠ [] := by
        intro hh
        exact hlen (by simp [hh])
      have htrans : batch._transactions = bb._transactions := by
        split at h
        · split at h
          · simp at h
          · split at h
            · simp at h
            · exact fromBuilder_transactions _ _ _ _ h
        · exact fromBuilder_transactions _ _ _ _ h
      exact ⟨htrans, htrans ▸ hne⟩

/-- Witness for C8: a fresh batch builder fails `build()` with the
empty-batch error. -/
theorem batch_build_rejects_empty_witness :
    TransactionBatchBuilder.build envTest 5 TransactionBatchBuilder.new =
      .error "No Transactions Specified." :=
  (batch_build_rejects_empty envTest 5 TransactionBatchBuilder.new).1 rfl

/-- **C6.** Conversion and transfers are mutually exclusive on a transaction
builder: `transfer()` fails once a conversion is set, `conversion()` fails
once a transfer was added (in either order), and `build()` fails — never
returning a transaction — when neither is set (with the dedicated message
once the input-amount check passes). -/
theorem conversion_transfers_mutually_exclusive (env : Env)
    (b : TransactionBuilder) :
    (b._conversion.isSome = true → ∀ fa amt,
      TransactionBuilder.transfer env b fa amt =
        .error "Conversion already specified") ∧
    (b._transfers ≠ [] → ∀ ct,
      TransactionBuilder.conversion b ct =
        .error "One or more transfer(s) already specified for this transaction") ∧
    (b._conversion = none → b._transfers = [] →
      (∀ tx, TransactionBuilder.build b ≠ .ok tx) ∧
      (b._input.amount.den = 1 → ¬ b._input.amount < 0 →
        TransactionBuilder.build b =
          .error "Either a conversion or transfer must be specified")) := by
  refine ⟨fun hc fa amt => ?_, fun ht ct => ?_, fun hc ht => ⟨fun tx => ?_, fun hd hneg => ?_⟩⟩
  · simp [TransactionBuilder.transfer, hc]
  · have : b._transfers.length > 0 := List.length_pos.mpr ht
    simp [TransactionBuilder.conversion, this]
  · intro h
    unfold TransactionBuilder.build at h
    by_cases hamt : ¬(b._input.amount.den = 1) ∨ b._input.amount < 0
    · simp [hamt] at h
    · simp [hamt, hc, ht] at h
  · unfold TransactionBuilder.build
    have hamt : ¬(¬(b._input.amount.den = 1) ∨ b._input.amount < 0) := by
      push_neg
      exact ⟨hd, not_lt.mp hneg⟩
    simp [hamt, hc, ht]

/-- Witness for C6 at concrete inputs: a builder with a conversion set
rejects `transfer()`, one with a transfer rejects `conversion()`, and a
fresh builder with neither fails `build()` with the dedicated error. -/
theorem conversion_transfers_mutually_exclusive_witness :
    TransactionBuilder.transfer envTest
        { TransactionBuilder.new with _conversion := some "PEG" }
        "FAout" (some 5) = .error "Conversion already specified" ∧
    TransactionBuilder.conversion
        { TransactionBuilder.new with _transfers := [⟨"FAout", 5⟩] }
        "PEG" =
      .error "One or more transfer(s) already specified for this transaction" ∧
    TransactionBuilder.build TransactionBuilder.new =
      .error "Either a conversion or transfer must be specified" :=
  ⟨(conversion_transfers_mutually_exclusive envTest
      { TransactionBuilder.new with _conversion := some "PEG" }).1 rfl "FAout" (some 5),
   (conversion_transfers_mutually_exclusive envTest
      { TransactionBuilder.new with _transfers := [⟨"FAout", 5⟩] }).2.1
      (by decide) "PEG",
   ((conversion_transfers_mutually_exclusive envTest
      TransactionBuilder.new).2.2 rfl rfl).2 (by decide) (by decide)⟩

/-- **C9.** The builder's amount validation rejects exactly the negative or
non-integer amounts, despite the `positive nonzero integer` wording of the
error message: an amount of `0` is accepted by `input()` and `transfer()`,
an omitted amount defaults to `0`, and a builder whose input amount is `0`
passes the `build()` validation. -/
theorem zero_amount_accepted (env : Env) (b : TransactionBuilder)
    (ty fs fa : String) (hsig : b._signature = none) :
    (env.isValidPrivateAddress fs = true →
      (∀ amt : Rat, amt.den = 1 → ¬ amt < 0 →
        TransactionBuilder.input env b ty fs (some amt) =
          .ok { b with
                _key := ⟨some (env.keyPairFromSeed fs).1,
                         some (env.keyPairFromSeed fs).2, none⟩
                _input := ⟨env.getPublicAddress fs, amt, ty⟩ }) ∧
      (∀ amt : Rat, amt.den ≠ 1 ∨ amt < 0 →
        TransactionBuilder.input env b ty fs (some amt) =
          .error "Input amount must be a positive nonzero integer")) ∧
    (TransactionBuilder.input env b ty fs none =
      TransactionBuilder.input env b ty fs (some 0)) ∧
    (b._conversion = none → env.isValidPublicFctAddress fa = true →
      TransactionBuilder.transfer env b fa (some 0) =
        .ok { b with _transfers := b._transfers ++ [⟨fa, 0⟩] }) ∧
    (TransactionBuilder.transfer env b fa none =
      TransactionBuilder.transfer env b fa (some 0)) ∧
    (b._input.amount = 0 → b._conversion.isSome = true →
      b._conversion ≠ some b._input.type_ → b._transfers = [] →
      b._timestamp = none → b._key.publicKey ≠ none →
      ∃ tx, TransactionBuilder.build b = .ok tx) := by
  refine ⟨fun hpriv => ⟨fun amt hden hneg => ?_, fun amt hbad => ?_⟩,
          rfl, fun hc hfa => ?_, rfl, fun h0 hcs hct htr hts hpk => ?_⟩
  · have hok : ¬(¬(amt.den = 1) ∨ amt < 0) := by
      push_neg
      exact ⟨hden, not_lt.mp hneg⟩
    simp [TransactionBuilder.input, hsig, hpriv, hok]
  · simp only [TransactionBuilder.input, hsig, hpriv]
    simp [hbad]
  · have h0ok : ¬(¬((0 : Rat).den = 1) ∨ (0 : Rat) < 0) := by decide
    simp [TransactionBuilder.transfer, hc, hsig, hfa, h0ok]
  · obtain ⟨pk, hpke⟩ := Option.ne_none_iff_exists'.mp hpk
    have h0ok : ¬(¬(b._input.amount.den = 1) ∨ b._input.amount < 0) := by
      rw [h0]
      decide
    have hisn : ¬(b._conversion.isNone ∧ b._transfers.length = 0) := by
      simp [Option.isNone_iff_eq_none]
      intro hcn
      rw [hcn] at hcs
      simp at hcs
    refine ⟨Transaction.fromBuilder b |>.toOption.getD
      { _input := b._input, _conversion := b._conversion,
        _transfers := none, _metadata := b._metadata,
        _key := b._key, _rcd := some (RCD_TYPE_1 ++ pk), _frozen := true }, ?_⟩
    have hcne : b._conversion ≠ none := Option.isSome_iff_ne_none.mp hcs
    unfold TransactionBuilder.build
    simp only [h0ok, if_false, hisn, hct, if_neg, htr, hts, hsig]
    simp [htr, hts, hsig, hcne, Transaction.fromBuilder, hpke, Except.toOption]

/-- Witness for C9 at concrete inputs: a zero amount is accepted by
`input()` and `transfer()`, and a zero-input-amount conversion builder
builds successfully. -/
theorem zero_amount_accepted_witness :
    TransactionBuilder.input envTest TransactionBuilder.new "pFCT" "Fs1priv"
        (some 0) =
      .ok { TransactionBuilder.new with
            _key := ⟨some [7], some [9], none⟩
            _input := ⟨"FAinput", 0, "pFCT"⟩ } ∧
    TransactionBuilder.transfer envTest TransactionBuilder.new "FAout"
        (some 0) =
      .ok { TransactionBuilder.new with _transfers := [⟨"FAout", 0⟩] } ∧
    ∃ tx, TransactionBuilder.build
      { TransactionBuilder.new with
        _input := ⟨"FAinput", 0, "pFCT"⟩
        _conversion := some "PEG"
        _key := ⟨some [7], some [9], none⟩ } = .ok tx :=
  ⟨((zero_amount_accepted envTest TransactionBuilder.new "pFCT" "Fs1priv"
      "FAout" rfl).1 (by decide)).1 0 (by decide) (by decide),
   (zero_amount_accepted envTest TransactionBuilder.new "pFCT" "Fs1priv"
      "FAout" rfl).2.2.1 rfl (by decide),
   (zero_amount_accepted envTest
      { TransactionBuilder.new with
        _input := ⟨"FAinput", 0, "pFCT"⟩
        _conversion := some "PEG"
        _key := ⟨some [7], some [9], none⟩ } "pFCT" "Fs1priv" "FAout"
      rfl).2.2.2.2 rfl rfl (by decide) rfl rfl (by decide)⟩

/-- A successful transfer-loop pass returns the running sum folded over the
whole list. -/
theorem checkTransfersLoop_ok_sum (addr : String) :
    ∀ (l : List Transfer) (s r : Rat),
      TransactionBuilder.checkTransfersLoop addr s l = .ok r →
      r = l.foldl (fun a tr => a + tr.amount) s := by
  intro l
  induction l with
  | nil =>
    intro s r h
    simp only [TransactionBuilder.checkTransfersLoop] at h
    cases h
    rfl
  | cons tr rest ih =>
    intro s r h
    simp only [TransactionBuilder.checkTransfersLoop] at h
    split at h
    · simp at h
    · split at h
      · simp at h
      · simpa using ih (s + tr.amount) r h

/-- When every transfer entry passes the per-entry checks, the loop succeeds
with the folded sum. -/
theorem checkTransfersLoop_complete (addr : String) :
    ∀ (l : List Transfer) (s : Rat),
      (∀ tr ∈ l, tr.amount.den = 1 ∧ ¬ tr.amount < 0 ∧ addr ≠ tr.address) →
      TransactionBuilder.checkTransfersLoop addr s l =
        .ok (l.foldl (fun a tr => a + tr.amount) s) := by
  intro l
  induction l with
  | nil =>
    intro s _
    rfl
  | cons tr rest ih =>
    intro s hv
    obtain ⟨hden, hneg, haddr⟩ := hv tr (by simp)
    have hok : ¬(¬(tr.amount.den = 1) ∨ tr.amount < 0) := by
      push_neg
      exact ⟨hden, not_lt.mp hneg⟩
    simp only [TransactionBuilder.checkTransfersLoop, hok, if_false, haddr,
      List.foldl_cons]
    exact ih (s + tr.amount) (fun t ht => hv t (by simp [ht]))

/-- Folding the amounts from `s` shifts the zero-based sum by `s`. -/
theorem foldl_amount_shift :
    ∀ (l : List Transfer) (s : Rat),
      l.foldl (fun a tr => a + tr.amount) s = s + transferSum l := by
  intro l
  induction l with
  | nil =>
    intro s
    simp [transferSum]
  | cons tr rest ih =>
    intro s
    simp only [List.foldl_cons, transferSum, ih (s + tr.amount),
      ih (0 + tr.amount)]
    ring

/-- **C1.** With at least one transfer added, `build()` returns a transaction
only when the transfer amounts sum exactly to the input amount, and a
mismatched sum (with the per-entry checks otherwise passing) fails `build()`
with the conservation error `transfer amount must equal input amount`. -/
theorem build_enforces_conservation (b : TransactionBuilder)
    (hne : b._transfers ≠ []) :
    (∀ tx, TransactionBuilder.build b = .ok tx →
      b._input.amount = transferSum b._transfers) ∧
    (b._input.amount.den = 1 → ¬ b._input.amount < 0 →
      b._conversion ≠ some b._input.type_ →
      (∀ tr ∈ b._transfers, tr.amount.den = 1 ∧ ¬ tr.amount < 0 ∧
        b._input.address ≠ tr.address) →
      b._input.amount ≠ transferSum b._transfers →
      TransactionBuilder.build b =
        .error "transfer amount must equal input amount") := by
  have hlen : b._transfers.length > 0 := List.length_pos.mpr hne
  have h2 : ¬(b._conversion.isNone = true ∧ b._transfers.length = 0) := by
    rintro ⟨_, hl⟩
    exact hne (List.length_eq_zero.mp hl)
  constructor
  · intro tx h
    unfold TransactionBuilder.build at h
    by_cases h1 : ¬(b._input.amount.den = 1) ∨ b._input.amount < 0
    · simp [h1] at h
    · simp only [h1, if_false, h2] at h
      by_cases h3 : b._conversion = some b._input.type_
      · simp [h3] at h
      · simp only [h3, if_false] at h
        rw [if_pos hlen] at h
        split at h
        · simp at h
        · rename_i sum heq
          by_cases hs : b._input.amount = sum
          · have := checkTransfersLoop_ok_sum b._input.address b._transfers 0 sum heq
            rw [hs, this, foldl_amount_shift, zero_add]
          · simp [hlen, hs] at h
  · intro hden hneg hconv hv hneq
    have h1 : ¬(¬(b._input.amount.den = 1) ∨ b._input.amount < 0) := by
      push_neg
      exact ⟨hden, not_lt.mp hneg⟩
    unfold TransactionBuilder.build
    simp only [h1, if_false, h2, hconv, if_neg]
    rw [if_pos hlen, checkTransfersLoop_complete b._input.address b._transfers 0 hv]
    have : b._transfers.foldl (fun a tr => a + tr.amount) 0 = transferSum b._transfers := rfl
    rw [this]
    simp [hlen, hneq]

/-- Witness for C1: input 5 against a single transfer of 6 fails `build()`
with the conservation error. -/
theorem build_enforces_conservation_witness :
    TransactionBuilder.build
      { TransactionBuilder.new with
        _input := ⟨"FAinput", 5, "pFCT"⟩
        _transfers := [⟨"FAout", 6⟩]
        _key := ⟨some [7], some [9], none⟩ } =
      .error "transfer amount must equal input amount" :=
  (build_enforces_conservation
    { TransactionBuilder.new with
      _input := ⟨"FAinput", 5, "pFCT"⟩
      _transfers := [⟨"FAout", 6⟩]
      _key := ⟨some [7], some [9], none⟩ } (by decide)).2
    (by decide) (by decide) (by decide) (by decide)
    (by simp [transferSum])

/-- Both constructor branches of `TransactionBatch` leave the singular
`_signature` and `_rcd` properties unassigned. -/
theorem fromBuilder_singular_fields_none (env : Env) (now : Nat)
    (bb : TransactionBatchBuilder) (batch : TransactionBatch)
    (h : TransactionBatch.fromBuilder env now bb = .ok batch) :
    batch._signature = none ∧ batch._rcd = none := by
  unfold TransactionBatch.fromBuilder at h
  split at h
  · split at h
    · simp at h
    · split at h
      · simp at h
      · split at h
        · simp at h
        · cases h; exact ⟨rfl, rfl⟩
  · unfold TransactionBatch.firstPass at h
    split at h
    · simp at h
    · cases h; exact ⟨rfl, rfl⟩

/-- **C3 (code-bug evidence).** The claim holds for `Transaction`:
`validateSignature` never throws once the signature and the RCD are both
present — a cryptographically invalid signature yields `false` — and throws
`Transaction not signed` exactly when the signature argument or the held RCD
is absent. The batch side of the claim is the code's slip:
`TransactionBatch.validateSignatures` guards on the singular
`_signature`/`_rcd` properties, which no code path ever assigns, so it
throws `Transaction not signed` on every constructor-built batch and can
never return the boolean its own docstring promises. -/
theorem validateSignature_false_on_invalid_throw_only_absent (env : Env)
    (t : Transaction) (hashed : List Nat) :
    (∀ s r, t._rcd = some r →
      Transaction.validateSignature env t hashed (some s) =
        .ok (env.naclVerify hashed s (r.drop 1))) ∧
    (∀ sig, sig = none ∨ t._rcd = none →
      Transaction.validateSignature env t hashed sig =
        .error "Transaction not signed") ∧
    (∀ (env2 : Env) (now : Nat) (bb : TransactionBatchBuilder)
        (batch : TransactionBatch),
      TransactionBatch.fromBuilder env2 now bb = .ok batch →
      TransactionBatch.validateSignatures env2 batch =
        .error "Transaction not signed") := by
  refine ⟨fun s r hr => ?_, fun sig hsig => ?_, fun env2 now bb batch hb => ?_⟩
  · simp [Transaction.validateSignature, hr]
  · rcases hsig with h | h
    · rw [h]
      rfl
    · unfold Transaction.validateSignature
      rw [h]
      rcases sig with _ | s <;> rfl
  · have hnone := fromBuilder_singular_fields_none env2 now bb batch hb
    unfold TransactionBatch.validateSignatures
    rw [hnone.1]

/-- Witness for the C3 theorem: on the concrete transaction `txC` (which
holds an RCD) a short, invalid signature verifies to `false` without
throwing; an absent signature throws; and the concrete constructor-built
batch `emptyBatch` throws `Transaction not signed` from
`validateSignatures`. -/
theorem validateSignature_false_on_invalid_witness :
    Transaction.validateSignature envTest txC [1] (some [2]) = .ok false ∧
    Transaction.validateSignature envTest txC [1] none =
      .error "Transaction not signed" ∧
    TransactionBatch.validateSignatures envTest emptyBatch =
      .error "Transaction not signed" :=
  ⟨(validateSignature_false_on_invalid_throw_only_absent envTest txC [1]).1
      [2] (RCD_TYPE_1 ++ [7]) (by decide),
   (validateSignature_false_on_invalid_throw_only_absent envTest txC [1]).2.1
      none (Or.inl rfl),
   (validateSignature_false_on_invalid_throw_only_absent envTest txC [1]).2.2
      envTest 5 TransactionBatchBuilder.new emptyBatch (by decide)⟩

/-- **C4 (code-bug evidence).** The first-pass constructor branch can never
reach its extIds assembly: for every batch builder holding at least one
transaction and no supplied signatures, construction throws
`TypeError: tx.getContent is not a function` at the content-snapshot loop
(2/TransactionBatch.js line 94), because the member `Transaction` class
defines no `getContent` (and the sibling variant that does define it never
assigns `_key`/`_rcd`, so it could not sign or supply RCDs). No staged code
path can produce the `[timestamp, RCD_0, sig_0, ...]` extIds the claim (and
the spec) describe. -/
theorem batch_first_pass_throws_at_getContent (env : Env) (now : Nat)
    (bb : TransactionBatchBuilder)
    (hfp : bb._signatures = none) (hne : bb._transactions ≠ []) :
    TransactionBatch.fromBuilder env now bb =
      .error "TypeError: tx.getContent is not a function" := by
  unfold TransactionBatch.fromBuilder
  rw [hfp]
  unfold TransactionBatch.firstPass
  match htr : bb._transactions with
  | [] => exact absurd htr hne
  | _ :: _ => rfl

/-- Witness for the C4 evidence theorem: the single-transaction batch
builder `bbC`, whose member is locally signable, still throws at the
content-snapshot loop. -/
theorem batch_first_pass_throws_at_getContent_witness :
    TransactionBatch.fromBuilder envTest 5 bbC =
      .error "TypeError: tx.getContent is not a function" :=
  batch_first_pass_throws_at_getContent envTest 5 bbC rfl (by decide)

/-- **C10.** Every builder-constructed `Transaction` and every
constructor-built `TransactionBatch` is frozen (`Object.freeze(this)` is the
constructor's final statement), and a property write attempted on a frozen
object is silently discarded, so no operation performed after construction
changes any field of the instance. -/
theorem frozen_after_construction :
    (∀ b t, Transaction.fromBuilder b = .ok t → t._frozen = true) ∧
    (∀ (env : Env) (now : Nat) bb batch,
      TransactionBatch.fromBuilder env now bb = .ok batch →
      batch._frozen = true) ∧
    (∀ (t : Transaction) (upd : Transaction → Transaction),
      t._frozen = true → Transaction.jsPropertyWrite t upd = t) ∧
    (∀ (batch : TransactionBatch) (upd : TransactionBatch → TransactionBatch),
      batch._frozen = true →
      TransactionBatch.jsPropertyWrite batch upd = batch) := by
  refine ⟨fun b t h => ?_, fun env now bb batch h => ?_,
          fun t upd h => ?_, fun batch upd h => ?_⟩
  · unfold Transaction.fromBuilder at h
    split at h
    · simp at h
    · cases h
      rfl
  · unfold TransactionBatch.fromBuilder at h
    split at h
    · split at h
      · simp at h
      · split at h
        · simp at h
        · split at h
          · simp at h
          · cases h
            rfl
    · unfold TransactionBatch.firstPass at h
      split at h
      · simp at h
      · cases h
        rfl
  · simp [Transaction.jsPropertyWrite, h]
  · simp [TransactionBatch.jsPropertyWrite, h]

/-- Witness for C10: the concrete built transaction `txC` and batch
`emptyBatch` are frozen, and a field-overwrite attempt on each is a no-op. -/
theorem frozen_after_construction_witness :
    txC._frozen = true ∧ emptyBatch._frozen = true ∧
    Transaction.jsPropertyWrite txC
      (fun t => { t with _conversion := some "overwritten" }) = txC ∧
    TransactionBatch.jsPropertyWrite emptyBatch
      (fun batch => { batch with _timestamp := 0 }) = emptyBatch :=
  ⟨frozen_after_construction.1 tbC txC (by decide),
   frozen_after_construction.2.1 envTest 5 TransactionBatchBuilder.new
     emptyBatch (by decide),
   frozen_after_construction.2.2.1 txC _ (by decide),
   frozen_after_construction.2.2.2 emptyBatch _ (by decide)⟩

end FatJs
